import Mathlib

/-!
Verification of the eWaterCycle Model Lifecycle Orchestrator and
Forcing Recipe Builder / Compatibility Resolver specification.

The repository snapshot ships only documentation (changelogs, rst docs,
notebooks); the Python package `ewatercycle` itself (modules
`ewatercycle.base.model`, `ewatercycle.base.forcing`,
`ewatercycle.esmvaltool.builder`, `ewatercycle.parameter_sets`) is not
present, so every definition below is modelled from the specification's
words, as faithfully as the text allows.
-/

set_option autoImplicit false

namespace Ewatercycle

/-! ## Parameter sets and the Compatibility Resolver -/

/-- Modelled from the spec: `ParameterSet` (§3) — named, versioned bundle of
static model input. `supported_model_versions = []` encodes the empty set,
meaning "supports all versions". Paths are strings; the Python class
`ewatercycle.parameter_sets.ParameterSet` is not in the snapshot. -/
structure ParameterSet where
  name : String
  directory : String
  config : String
  doi : String
  target_model : String
  supported_model_versions : List String
  deriving Repr, DecidableEq

/-- Modelled from the spec: the error taxonomy of the Compatibility Resolver
(§4.3, §7): `UnsupportedVersionError` and `IncompatibleParameterSetError`. -/
inductive CompatError where
  | unsupportedVersion (version : String)
  | incompatibleParameterSet
  deriving Repr, DecidableEq

/-- Modelled from the spec: first clause of §4.3 — "version ∈ model's declared
available versions — else `UnsupportedVersionError`". -/
def check_version (available : List String) (version : String) :
    Except CompatError Unit :=
  if version ∈ available then .ok () else .error (.unsupportedVersion version)

/-- Modelled from the spec: second clause of §4.3 — "ParameterSet.target_model
== model identifier — else `IncompatibleParameterSetError`; and
(ParameterSet.supported_model_versions is empty OR version ∈ that set) — else
`UnsupportedVersionError`". -/
def check_parameter_set (model : String) (version : String)
    (ps : ParameterSet) : Except CompatError Unit :=
  if ps.target_model ≠ model then .error .incompatibleParameterSet
  else if ps.supported_model_versions = [] ∨
      version ∈ ps.supported_model_versions then .ok ()
  else .error (.unsupportedVersion version)

/-- Modelled from the spec: the Compatibility Resolver (§4.3) — a pure
function over (model identifier, requested version, optional ParameterSet);
it either passes silently (`.ok ()`) or raises. The soft geometry check
against a Forcing is a warning, not a verdict, and is not part of the
accept/reject behaviour modelled here. -/
def resolve (available : List String) (model : String) (version : String)
    (ps : Option ParameterSet) : Except CompatError Unit :=
  match check_version available version with
  | .error e => .error e
  | .ok () =>
    match ps with
    | none => .ok ()
    | some p => check_parameter_set model version p

/-- C1: a ParameterSet with empty `supported_model_versions` places no
version constraint — the resolver's parameter-set check accepts every
version string for the set's target model (and the full resolver accepts
whenever the model itself offers the version); a ParameterSet with a
non-empty set makes the resolver reject any version outside that set with
`UnsupportedVersionError`. -/
theorem resolver_supported_model_versions (available : List String)
    (model version : String) (ps : ParameterSet)
    (htgt : ps.target_model = model) :
    (ps.supported_model_versions = [] →
      check_parameter_set model version ps = .ok () ∧
      (version ∈ available →
        resolve available model version (some ps) = .ok ())) ∧
    (ps.supported_model_versions ≠ [] →
      version ∉ ps.supported_model_versions →
      resolve available model version (some ps) =
        .error (.unsupportedVersion version)) := by
  constructor
  · intro hempty
    constructor
    · simp [check_parameter_set, htgt, hempty]
    · intro hav
      simp [resolve, check_version, hav, check_parameter_set, htgt, hempty]
  · intro hne hnotin
    by_cases hav : version ∈ available
    · simp [resolve, check_version, hav, check_parameter_set, htgt, hne, hnotin]
    · simp [resolve, check_version, hav]

/-- Witness for C1 at a concrete parameter set with an empty
`supported_model_versions` set and a version string the model itself
does not even declare: the parameter-set check still accepts it. -/
theorem resolver_supported_model_versions_witness :
    ({ name := "pcrglobwb_example_case", directory := "/data/psets/pcrg",
       config := "/data/psets/pcrg/setup.ini", doi := "N/A",
       target_model := "pcrglobwb",
       supported_model_versions := [] } : ParameterSet).target_model =
      "pcrglobwb" ∧
    check_parameter_set "pcrglobwb" "9999.99"
      { name := "pcrglobwb_example_case", directory := "/data/psets/pcrg",
        config := "/data/psets/pcrg/setup.ini", doi := "N/A",
        target_model := "pcrglobwb",
        supported_model_versions := [] } = .ok () :=
  ⟨rfl,
    ((resolver_supported_model_versions ["2020.1.1"] "pcrglobwb" "9999.99"
      { name := "pcrglobwb_example_case", directory := "/data/psets/pcrg",
        config := "/data/psets/pcrg/setup.ini", doi := "N/A",
        target_model := "pcrglobwb",
        supported_model_versions := [] } rfl).1 rfl).1⟩

/-! ## Coordinate-to-index resolution (nearest neighbour) -/

/-- Modelled from the spec: squared Euclidean distance in (latitude,
longitude) coordinate space (§4.4). Minimising the squared distance is
equivalent to minimising the Euclidean distance, and is exact over `ℚ`. -/
def d2 (p q : ℚ × ℚ) : ℚ :=
  (p.1 - q.1) * (p.1 - q.1) + (p.2 - q.2) * (p.2 - q.2)

/-- Modelled from the spec: coordinate-to-index resolution with
`method="nearest"` (§4.4) — over the flattened list of grid points, return
the index with the smallest combined Euclidean distance to the query;
the first such index in row-major iteration order wins ties. -/
def nearest_index : List (ℚ × ℚ) → ℚ × ℚ → Option Nat
  | [], _ => none
  | p :: ps, q =>
    match nearest_index ps q with
    | none => some 0
    | some j =>
      if d2 p q ≤ d2 (ps.getD j (0, 0)) q then some 0 else some (j + 1)

/-- Modelled from the spec: the flattened, row-major point list of a
rectilinear grid given by its latitude and longitude coordinate arrays
(§4.4); an unstructured grid is already such a flat point list. -/
def grid_points (lats lons : List ℚ) : List (ℚ × ℚ) :=
  lats.flatMap (fun la => lons.map (fun lo => (la, lo)))

/-- C8: on every nonempty flattened point list (a row-major rectilinear grid
via `grid_points`, or an unstructured grid's own point list) the nearest
query returns the flattened index with the smallest squared Euclidean
distance to the query point, every earlier index being strictly farther
(first index wins ties); and the resolution is deterministic, so two
queries at identical coordinates resolve to the same flattened index. -/
theorem nearest_index_resolves_min_first (pts : List (ℚ × ℚ)) (q : ℚ × ℚ)
    (h : pts ≠ []) :
    (∃ i, nearest_index pts q = some i ∧ i < pts.length ∧
      (∀ j, j < pts.length → d2 (pts.getD i (0, 0)) q ≤ d2 (pts.getD j (0, 0)) q) ∧
      (∀ j, j < i → d2 (pts.getD j (0, 0)) q > d2 (pts.getD i (0, 0)) q)) ∧
    (∀ i₁ i₂, nearest_index pts q = some i₁ → nearest_index pts q = some i₂ →
      i₁ = i₂) := by
  refine ⟨?_, ?_⟩
  · induction pts with
    | nil => exact absurd rfl h
    | cons p ps ih =>
      by_cases hne : ps = []
      · subst hne
        refine ⟨0, by simp [nearest_index], by simp, ?_, ?_⟩
        · intro j hj
          simp only [List.length_cons, List.length_nil] at hj
          have hj0 : j = 0 := by omega
          subst hj0
          exact le_refl _
        · intro j hj
          omega
      · obtain ⟨j, hj_eq, hj_lt, hj_min, hj_first⟩ := ih hne
        by_cases hcmp : d2 p q ≤ d2 (ps.getD j (0, 0)) q
        · refine ⟨0, ?_, by simp, ?_, ?_⟩
          · simp only [nearest_index, hj_eq]
            rw [if_pos hcmp]
          · intro k hk
            match k with
            | 0 => exact le_refl _
            | Nat.succ k' =>
              simp only [List.getD_cons_zero, List.getD_cons_succ]
              exact le_trans hcmp (hj_min k' (by simpa using hk))
          · intro k hk
            omega
        · refine ⟨j + 1, ?_, ?_, ?_, ?_⟩
          · simp only [nearest_index, hj_eq]
            rw [if_neg hcmp]
          · simpa using Nat.succ_lt_succ hj_lt
          · intro k hk
            match k with
            | 0 =>
              simp only [List.getD_cons_zero, List.getD_cons_succ]
              exact le_of_lt (lt_of_not_le hcmp)
            | Nat.succ k' =>
              simp only [List.getD_cons_succ]
              exact hj_min k' (by simpa using hk)
          · intro k hk
            match k with
            | 0 =>
              simp only [List.getD_cons_zero, List.getD_cons_succ]
              exact lt_of_not_le hcmp
            | Nat.succ k' =>
              simp only [List.getD_cons_succ]
              exact hj_first k' (by omega)
  · intro i₁ i₂ h₁ h₂
    rw [h₁] at h₂
    exact Option.some.inj h₂

/-- Witness for C8 on the concrete 2×2 rectilinear grid with latitudes
[0, 2] and longitudes [0, 2] queried at its centre (1, 1), where all four
points tie: the theorem applies, and the resolved index is the first one
in row-major order (0). -/
theorem nearest_index_resolves_min_first_witness :
    grid_points [0, 2] [0, 2] ≠ [] ∧
    ((∃ i, nearest_index (grid_points [0, 2] [0, 2]) (1, 1) = some i ∧
      i < (grid_points [0, 2] [0, 2]).length ∧
      (∀ j, j < (grid_points [0, 2] [0, 2]).length →
        d2 ((grid_points [0, 2] [0, 2]).getD i (0, 0)) (1, 1) ≤
          d2 ((grid_points [0, 2] [0, 2]).getD j (0, 0)) (1, 1)) ∧
      (∀ j, j < i →
        d2 ((grid_points [0, 2] [0, 2]).getD j (0, 0)) (1, 1) >
          d2 ((grid_points [0, 2] [0, 2]).getD i (0, 0)) (1, 1))) ∧
    (∀ i₁ i₂, nearest_index (grid_points [0, 2] [0, 2]) (1, 1) = some i₁ →
      nearest_index (grid_points [0, 2] [0, 2]) (1, 1) = some i₂ →
      i₁ = i₂)) ∧
    nearest_index (grid_points [0, 2] [0, 2]) (1, 1) = some 0 :=
  ⟨by simp [grid_points],
    nearest_index_resolves_min_first (grid_points [0, 2] [0, 2]) (1, 1)
      (by simp [grid_points]),
    by norm_num [grid_points, nearest_index, d2]⟩

/-! ## Model Lifecycle Orchestrator state machine -/

/-- Modelled from the spec: lifecycle states of a ModelInstance (§4.4):
CREATED → CONFIGURED → INITIALIZED → RUNNING → FINALIZED, with ERROR
reachable from any non-terminal state. -/
inductive LifecycleState where
  | created
  | configured
  | initialized
  | running
  | finalized
  | error
  deriving Repr, DecidableEq

/-- Modelled from the spec: the error taxonomy attached to one
ModelInstance (§4.4, §7): `InvalidStateError` (StateError), `UpdateError`,
`InitializationError`, `UnknownParameterError`, unknown-variable and
unknown-location faults of variable access, and wrapped compatibility
errors. -/
inductive ModelError where
  | invalidState
  | updateError
  | initializationError
  | unknownParameter (key : String)
  | unknownVariable (name : String)
  | invalidLocation
  | compat (e : CompatError)
  deriving Repr, DecidableEq

/-- Modelled from the spec: a ModelInstance (§3, §4.4) — lifecycle state,
simulation clock (an integer count of the model's internal time unit),
per-variable flat value arrays and per-variable grid coordinate lists,
and the exclusively owned remote process handle. -/
structure ModelInstance where
  state : LifecycleState
  current_time : Int
  start_time : Int
  end_time : Int
  time_step : Int
  values : List (String × List ℚ)
  grids : List (String × List (ℚ × ℚ))
  process : Option Nat
  deriving Repr, DecidableEq

/-- Modelled from the spec: variable access is valid in INITIALIZED or
RUNNING only (§4.4). -/
def state_allows_variable_access (s : LifecycleState) : Bool :=
  match s with
  | .initialized => true
  | .running => true
  | _ => false

/-- Modelled from the spec: `get_value` (§4.4, §6) — returns the flat value
array of a variable; invalid outside INITIALIZED/RUNNING
(`InvalidStateError`). -/
def get_value (inst : ModelInstance) (name : String) :
    Except ModelError (List ℚ) :=
  if state_allows_variable_access inst.state then
    match inst.values.find? (fun kv => kv.1 == name) with
    | some kv => .ok kv.2
    | none => .error (.unknownVariable name)
  else .error .invalidState

/-- Modelled from the spec: `set_value` (§4.4, §6) — replaces the flat
value array of a variable; invalid outside INITIALIZED/RUNNING, in which
case the instance is left untouched and `InvalidStateError` is reported. -/
def set_value (inst : ModelInstance) (name : String) (xs : List ℚ) :
    ModelInstance × Option ModelError :=
  if state_allows_variable_access inst.state then
    ({ inst with
        values := inst.values.map
          (fun kv => if kv.1 == name then (kv.1, xs) else kv) }, none)
  else (inst, some .invalidState)

/-- Modelled from the spec: the coordinate-based variant
`get_value_at_location` (§4.4) — resolves (latitude, longitude) to a
flattened index by nearest neighbour over the variable's grid coordinate
list, then reads that index; invalid outside INITIALIZED/RUNNING. -/
def get_value_at_location (inst : ModelInstance) (name : String)
    (lat lon : ℚ) : Except ModelError ℚ :=
  if state_allows_variable_access inst.state then
    match inst.grids.find? (fun kv => kv.1 == name),
        inst.values.find? (fun kv => kv.1 == name) with
    | some g, some v =>
      match nearest_index g.2 (lat, lon) with
      | some i => .ok (v.2.getD i 0)
      | none => .error .invalidLocation
    | _, _ => .error (.unknownVariable name)
  else .error .invalidState

/-- Modelled from the spec: the grid-shaped variant (§4.4, tutorial's
`get_value_as_xarray`) — returns the variable's grid coordinate list
together with its flat values; invalid outside INITIALIZED/RUNNING. -/
def get_value_as_grid (inst : ModelInstance) (name : String) :
    Except ModelError (List (ℚ × ℚ) × List ℚ) :=
  if state_allows_variable_access inst.state then
    match inst.grids.find? (fun kv => kv.1 == name),
        inst.values.find? (fun kv => kv.1 == name) with
    | some g, some v => .ok (g.2, v.2)
    | _, _ => .error (.unknownVariable name)
  else .error .invalidState

/-- Modelled from the spec: `update()` (§4.4) — valid in
INITIALIZED/RUNNING; fails with `UpdateError` when current time ≥ end time
(a precondition, never silently clamped), leaving the instance untouched;
otherwise advances the clock by exactly one internal time step and moves
to RUNNING. -/
def update (inst : ModelInstance) : ModelInstance × Option ModelError :=
  if inst.state = .initialized ∨ inst.state = .running then
    if inst.end_time ≤ inst.current_time then (inst, some .updateError)
    else
      ({ inst with
          state := .running,
          current_time := inst.current_time + inst.time_step }, none)
  else (inst, some .invalidState)

/-- Modelled from the spec: `finalize()` (§4.4) — releases the remote
process and moves to the terminal FINALIZED state; calling it again is a
no-op, not an error. -/
def finalize (inst : ModelInstance) : ModelInstance × Option ModelError :=
  if inst.state = .finalized then (inst, none)
  else ({ inst with state := .finalized, process := none }, none)

/-- C3: in CREATED, CONFIGURED or FINALIZED every variable-access
operation — `get_value`, `set_value`, the coordinate-based
`get_value_at_location` and the grid-shaped `get_value_as_grid` — reports
`InvalidStateError`; `set_value` leaves the instance untouched, and
`get_value` never returns any data. -/
theorem variable_access_outside_initialized_raises (inst : ModelInstance)
    (name : String) (lat lon : ℚ) (xs : List ℚ)
    (h : inst.state = .created ∨ inst.state = .configured ∨
      inst.state = .finalized) :
    get_value inst name = .error .invalidState ∧
    set_value inst name xs = (inst, some .invalidState) ∧
    get_value_at_location inst name lat lon = .error .invalidState ∧
    get_value_as_grid inst name = .error .invalidState ∧
    (∀ v, get_value inst name ≠ .ok v) := by
  have hb : state_allows_variable_access inst.state = false := by
    rcases h with h | h | h <;> rw [h] <;> rfl
  refine ⟨?_, ?_, ?_, ?_, ?_⟩
  · simp [get_value, hb]
  · simp [set_value, hb]
  · simp [get_value_at_location, hb]
  · simp [get_value_as_grid, hb]
  · intro v
    simp [get_value, hb]

/-- Concrete freshly created instance used by the C3 witness. -/
def created_instance : ModelInstance :=
  { state := .created, current_time := 0, start_time := 0,
    end_time := 10, time_step := 1,
    values := [("Discharge", [3, 4])],
    grids := [("Discharge", [(0, 0), (0, 1)])],
    process := none }

/-- Witness for C3 at a concrete freshly created instance (before
`initialize`): `get_value` raises `InvalidStateError`. -/
theorem variable_access_outside_initialized_raises_witness :
    (created_instance.state = .created ∨
      created_instance.state = .configured ∨
      created_instance.state = .finalized) ∧
    get_value created_instance "Discharge" = .error .invalidState :=
  ⟨Or.inl rfl,
    (variable_access_outside_initialized_raises created_instance
      "Discharge" 0 0 [] (Or.inl rfl)).1⟩

/-- C4: in a state where `update()` is legal (INITIALIZED or RUNNING),
calling it with current time ≥ end time yields `UpdateError` with the
instance — in particular `current_time` — unchanged; under the
precondition current time < end time it succeeds and advances the clock
by exactly one internal time step. -/
theorem update_requires_time_before_end (inst : ModelInstance)
    (h : inst.state = .initialized ∨ inst.state = .running) :
    (inst.end_time ≤ inst.current_time →
      update inst = (inst, some .updateError)) ∧
    (inst.current_time < inst.end_time →
      (update inst).2 = none ∧
      (update inst).1.current_time = inst.current_time + inst.time_step ∧
      (update inst).1.state = .running) := by
  constructor
  · intro hle
    simp [update, h, hle]
  · intro hlt
    have hnle : ¬ inst.end_time ≤ inst.current_time := not_le.mpr hlt
    refine ⟨?_, ?_, ?_⟩ <;> simp [update, h, hnle]

/-- Concrete running instance at its end time, used by the C4 witness. -/
def exhausted_instance : ModelInstance :=
  { state := .running, current_time := 10, start_time := 0,
    end_time := 10, time_step := 1, values := [], grids := [],
    process := some 7 }

/-- Witness for C4 at a concrete running instance whose clock has reached
the end time: `update` reports `UpdateError` and returns the instance
unchanged. -/
theorem update_requires_time_before_end_witness :
    (exhausted_instance.state = .initialized ∨
      exhausted_instance.state = .running) ∧
    update exhausted_instance = (exhausted_instance, some .updateError) :=
  ⟨Or.inr rfl,
    (update_requires_time_before_end exhausted_instance
      (Or.inr rfl)).1 (by norm_num [exhausted_instance])⟩

/-- C5: `finalize()` is idempotent — the first call releases the process
handle and reaches the terminal FINALIZED state without raising, and a
second call returns exactly the same instance, again without raising. -/
theorem finalize_idempotent (inst : ModelInstance) :
    (finalize inst).2 = none ∧
    (finalize inst).1.state = .finalized ∧
    finalize (finalize inst).1 = ((finalize inst).1, none) := by
  by_cases h : inst.state = .finalized <;>
    simp [finalize, h]

/-! ## Configure: compatibility checks precede side effects -/

/-- Modelled from the spec: the externally visible side effects of
configuring a model instance (§4.4, §7) — the working directories created
on disk and the remote processes launched. Making them explicit lets the
ordering policy "errors are raised synchronously before any external
process is launched — no partial state" be stated. -/
structure World where
  dirs_created : List String
  launched : List Nat
  deriving Repr, DecidableEq

/-- Modelled from the spec: validation of caller-supplied configuration
overrides against the model-declared schema of recognized parameter names
(§4.4) — an unrecognized key fails with `UnknownParameterError`. -/
def validate_overrides (schema : List String)
    (overrides : List (String × String)) : Except ModelError Unit :=
  match overrides.find? (fun kv => !(schema.contains kv.1)) with
  | some kv => .error (.unknownParameter kv.1)
  | none => .ok ()

/-- Modelled from the spec: the `CREATED → CONFIGURED` transition (§4.4) —
first runs the Compatibility Resolver, then validates the overrides, and
only then allocates a fresh working directory, renders the configuration
file and launches the remote process. Returns the configuration file path
together with the updated instance and world. -/
def configure (available : List String) (model version : String)
    (ps : Option ParameterSet) (schema : List String)
    (overrides : List (String × String)) (workdir : String) (handle : Nat)
    (inst : ModelInstance) (w : World) :
    Except ModelError String × ModelInstance × World :=
  match resolve available model version ps with
  | .error e => (.error (.compat e), inst, w)
  | .ok () =>
    match validate_overrides schema overrides with
    | .error e => (.error e, inst, w)
    | .ok () =>
      (.ok (workdir ++ "/config"),
        { inst with state := .configured },
        { dirs_created := workdir :: w.dirs_created,
          launched := handle :: w.launched })

/-- C6: when the Compatibility Resolver rejects the request (for example a
version outside `available_versions`), or when override validation fails,
`configure` propagates that error with the instance and the world exactly
as they were — no working directory has been created and no external
process has been launched when the exception leaves. -/
theorem configure_checks_precede_side_effects (available : List String)
    (model version : String) (ps : Option ParameterSet)
    (schema : List String) (overrides : List (String × String))
    (workdir : String) (handle : Nat) (inst : ModelInstance) (w : World) :
    (∀ e, resolve available model version ps = .error e →
      configure available model version ps schema overrides workdir handle
        inst w = (.error (.compat e), inst, w)) ∧
    (∀ e, resolve available model version ps = .ok () →
      validate_overrides schema overrides = .error e →
      configure available model version ps schema overrides workdir handle
        inst w = (.error e, inst, w)) := by
  constructor
  · intro e he
    simp [configure, he]
  · intro e hok he
    simp [configure, hok, he]

/-- Witness for C6 at the spec's scenario: requesting version "9999.99"
while `available_versions = ["2020.1.1", "2020.1.2"]` makes `configure`
raise `UnsupportedVersionError` with the world untouched — no directory
created, no process launched. -/
theorem configure_checks_precede_side_effects_witness :
    resolve ["2020.1.1", "2020.1.2"] "wflow" "9999.99" none =
      .error (.unsupportedVersion "9999.99") ∧
    configure ["2020.1.1", "2020.1.2"] "wflow" "9999.99" none [] []
      "/scratch/run1" 42 created_instance
      { dirs_created := [], launched := [] } =
      (.error (.compat (.unsupportedVersion "9999.99")), created_instance,
        { dirs_created := [], launched := [] }) :=
  ⟨rfl,
    (configure_checks_precede_side_effects ["2020.1.1", "2020.1.2"] "wflow"
      "9999.99" none [] [] "/scratch/run1" 42 created_instance
      { dirs_created := [], launched := [] }).1
      (.unsupportedVersion "9999.99") rfl⟩

/-! ## Forcing Recipe Builder -/

/-- Modelled from the spec: a structured dataset descriptor (§4.2) —
project, experiment, ensemble, grid — or the resolution of a well-known
reanalysis name. -/
structure Dataset where
  name : String
  project : String
  experiment : String
  ensemble : String
  grid : String
  deriving Repr, DecidableEq

/-- Modelled from the spec: error taxonomy of the Recipe Builder (§4.2):
`IncompleteRecipeError`, `UnknownDatasetError`, `RecipeExecutionError`. -/
inductive RecipeError where
  | incompleteRecipe
  | unknownDataset (name : String)
  | recipeExecution (diagnostics : String)
  deriving Repr, DecidableEq

/-- Modelled from the spec: the well-known reanalysis names resolved to
fixed internal descriptors (§4.2, §8 uses "ERA5"). -/
def known_datasets : List (String × Dataset) :=
  [("ERA5",
    { name := "ERA5", project := "OBS6", experiment := "historical",
      ensemble := "r1i1p1", grid := "native" }),
   ("ERA-Interim",
    { name := "ERA-Interim", project := "OBS6", experiment := "historical",
      ensemble := "r1i1p1", grid := "native" })]

/-- Modelled from the spec: the fluent, order-independent Recipe Builder
state (§4.2) — optional time window, optional spatial shape, optional
dataset, and the list of requested variables with their options. -/
structure RecipeBuilder where
  start_year : Option Int
  end_year : Option Int
  shape : Option String
  dataset : Option Dataset
  recipe_vars : List (String × List (String × String))
  deriving Repr, DecidableEq

/-- Modelled from the spec: the empty builder every fluent chain starts
from (§4.2). -/
def RecipeBuilder.new : RecipeBuilder :=
  { start_year := none, end_year := none, shape := none, dataset := none,
    recipe_vars := [] }

/-- Modelled from the spec: `start(year)` (§4.2). -/
def RecipeBuilder.start (b : RecipeBuilder) (year : Int) : RecipeBuilder :=
  { b with start_year := some year }

/-- Modelled from the spec: `end(year)` (§4.2); `end` is reserved in Lean,
hence the trailing tick. -/
def RecipeBuilder.end' (b : RecipeBuilder) (year : Int) : RecipeBuilder :=
  { b with end_year := some year }

/-- Modelled from the spec: `shape(path)` (§4.2). -/
def RecipeBuilder.with_shape (b : RecipeBuilder) (path : String) :
    RecipeBuilder :=
  { b with shape := some path }

/-- Modelled from the spec: `dataset(name_or_descriptor)` (§4.2) — a bare
name is resolved against the well-known reanalysis table and fails with
`UnknownDatasetError` when unrecognized; an explicit descriptor is taken
as given. -/
def RecipeBuilder.with_dataset (b : RecipeBuilder)
    (name_or_descriptor : Sum String Dataset) :
    Except RecipeError RecipeBuilder :=
  match name_or_descriptor with
  | .inl n =>
    match (known_datasets.find? (fun kv => kv.1 == n)) with
    | some kv => .ok { b with dataset := some kv.2 }
    | none => .error (.unknownDataset n)
  | .inr d => .ok { b with dataset := some d }

/-- Modelled from the spec: `add_variable(name, options)` (§4.2) —
duplicate additions of the same name are idempotent, last options win. -/
def RecipeBuilder.add_variable (b : RecipeBuilder) (name : String)
    (options : List (String × String)) : RecipeBuilder :=
  { b with
      recipe_vars :=
        b.recipe_vars.filter (fun kv => kv.1 ≠ name) ++ [(name, options)] }

/-- Modelled from the spec: the immutable `Recipe` handed to the external
execution engine (§3, §4.2). -/
structure Recipe where
  dataset : Dataset
  start_year : Int
  end_year : Int
  shape : Option String
  recipe_vars : List (String × List (String × String))
  deriving Repr, DecidableEq

/-- Modelled from the spec: `build()` (§4.2) — fails with
`IncompleteRecipeError` if the time window, the dataset, or at least one
variable is missing; otherwise returns the completed Recipe. -/
def build (b : RecipeBuilder) : Except RecipeError Recipe :=
  match b.start_year, b.end_year, b.dataset with
  | some s, some e, some d =>
    if b.recipe_vars = [] then .error .incompleteRecipe
    else
      .ok { dataset := d, start_year := s, end_year := e, shape := b.shape,
            recipe_vars := b.recipe_vars }
  | _, _, _ => .error .incompleteRecipe

/-- C7: `build()` fails with `IncompleteRecipeError` exactly when the time
window (start or end), the dataset, or every variable is missing, and
returns a Recipe exactly when all three ingredients are present. -/
theorem build_requires_window_dataset_variable (b : RecipeBuilder) :
    (build b = .error .incompleteRecipe ↔
      (b.start_year = none ∨ b.end_year = none ∨ b.dataset = none ∨
        b.recipe_vars = [])) ∧
    ((∃ r, build b = .ok r) ↔
      (b.start_year ≠ none ∧ b.end_year ≠ none ∧ b.dataset ≠ none ∧
        b.recipe_vars ≠ [])) := by
  rcases hs : b.start_year with _ | s <;>
    rcases he : b.end_year with _ | e <;>
      rcases hd : b.dataset with _ | d <;>
        by_cases hv : b.recipe_vars = [] <;>
          simp [build, hs, he, hd, hv]

/-! ## Forcing objects, manifest save/load, generation -/

/-- Modelled from the spec: the structured content of the forcing manifest
(§4.2, §6) — "a structured text file" (yaml); modelled at the level of its
structured values rather than raw characters. -/
inductive Yaml where
  | str (s : String)
  | int (n : Int)
  | null
  | map (entries : List (String × Yaml))

/-- Modelled from the spec: a `Forcing` object (§3) — start/end time (an
integer count of UTC seconds), the directory holding the files, the
optional spatial shape reference, and the unique-keyed mapping from
logical variable name to filename. -/
structure Forcing where
  start_time : Int
  end_time : Int
  directory : String
  shape : Option String
  filenames : List (String × String)
  deriving Repr, DecidableEq

/-- Modelled from the spec: manifest failures of `Forcing.load` (§4.2):
`ManifestNotFoundError` and `ManifestParseError`. -/
inductive ManifestError where
  | manifestNotFound
  | manifestParse
  deriving Repr, DecidableEq

/-- Modelled from the spec: key lookup in a manifest mapping. -/
def yaml_lookup (entries : List (String × Yaml)) (key : String) :
    Option Yaml :=
  (entries.find? (fun kv => kv.1 == key)).map (fun kv => kv.2)

/-- Modelled from the spec: reading the recorded shape path back from the
manifest — absent (`null`) or a path string. -/
def parse_shape : Yaml → Option (Option String)
  | .null => some none
  | .str p => some (some p)
  | _ => none

/-- Modelled from the spec: reading the variable→filename mapping back
from the manifest; any non-string entry is malformed. -/
def parse_filenames : List (String × Yaml) → Option (List (String × String))
  | [] => some []
  | (k, .str v) :: rest => (parse_filenames rest).map (fun l => (k, v) :: l)
  | _ => none

/-- Modelled from the spec: writing the manifest (§4.2 step 5, §6) —
records start time, end time, shape path and the variable→filename
mapping. -/
def Forcing.save (f : Forcing) : Yaml :=
  .map [("start_time", .int f.start_time),
        ("end_time", .int f.end_time),
        ("shape", match f.shape with | some p => .str p | none => .null),
        ("filenames", .map (f.filenames.map (fun kv => (kv.1, .str kv.2))))]

/-- Modelled from the spec: `Forcing.load(directory)` (§4.2) — reads the
manifest found in the directory (passed explicitly here, since the
filesystem is modelled explicitly) and reconstructs the Forcing without
touching the execution engine; fails with `ManifestParseError` if
malformed. -/
def Forcing.load (dir : String) (manifest : Yaml) :
    Except ManifestError Forcing :=
  match manifest with
  | .map entries =>
    match yaml_lookup entries "start_time", yaml_lookup entries "end_time",
        yaml_lookup entries "shape", yaml_lookup entries "filenames" with
    | some (.int s), some (.int e), some sh, some (.map fs) =>
      match parse_shape sh, parse_filenames fs with
      | some shape, some filenames =>
        .ok { start_time := s, end_time := e, directory := dir,
              shape := shape, filenames := filenames }
      | _, _ => .error .manifestParse
    | _, _, _, _ => .error .manifestParse
  | _ => .error .manifestNotFound

/-- Round-trip of the filename mapping through the manifest encoding. -/
theorem parse_filenames_save (l : List (String × String)) :
    parse_filenames (l.map (fun kv => (kv.1, .str kv.2))) = some l := by
  induction l with
  | nil => rfl
  | cons hd tl ih =>
    cases hd
    simp [parse_filenames, ih]

/-- Loading a saved manifest from the forcing's own directory restores the
Forcing exactly. -/
theorem Forcing.load_save (f : Forcing) :
    Forcing.load f.directory (Forcing.save f) = .ok f := by
  rcases f with ⟨s, e, dir, sh, fns⟩
  rcases sh with _ | p <;>
    simp [Forcing.load, Forcing.save, yaml_lookup, List.find?, parse_shape,
      parse_filenames_save]

/-- Modelled from the spec: sibling files of a spatial boundary shapefile
(§4.2 step 4, changelog 2.3.1) — geometry `.shp`, index `.shx`, attribute
`.dbf`, projection `.prj`, sharing one path stem. -/
def shape_sibling_files (stem : String) : List String :=
  [stem ++ ".shp", stem ++ ".shx", stem ++ ".dbf", stem ++ ".prj"]

/-- Modelled from the spec: a forcing generation request (§4.2) — time
window, optional spatial boundary (given by its path stem, all siblings
sharing it), and dataset. -/
structure ForcingRequest where
  start_time : Int
  end_time : Int
  shape : Option String
  dataset : Dataset
  deriving Repr, DecidableEq

/-- Modelled from the spec: failures of `Forcing.generate` before the
external engine runs (§3 invariant start < end, §4.2 build step). -/
inductive GenerateError where
  | invalidTimeWindow
  | incompleteRecipe
  deriving Repr, DecidableEq

/-- Modelled from the spec: what a successful `Forcing.generate` leaves
behind (§4.2 steps 1–5): the Forcing object, the manifest persisted in the
output directory, and the files placed there (data files, copied shape
siblings, manifest file). -/
structure GenerateResult where
  forcing : Forcing
  manifest : Yaml
  output_files : List String

/-- Modelled from the spec: `Forcing.generate` (§4.2) — validates the time
window, obtains one file per model-hook variable from the engine, copies
the spatial boundary file with all of its siblings into the output
directory, and constructs and persists the Forcing with its manifest. -/
def generate (req : ForcingRequest) (model_vars : List String)
    (output_dir : String) : Except GenerateError GenerateResult :=
  if req.end_time ≤ req.start_time then .error .invalidTimeWindow
  else if model_vars = [] then .error .incompleteRecipe
  else
    let filenames := model_vars.map (fun v => (v, v ++ ".nc"))
    let f : Forcing :=
      { start_time := req.start_time, end_time := req.end_time,
        directory := output_dir, shape := req.shape,
        filenames := filenames }
    let shape_files :=
      match req.shape with
      | some stem => shape_sibling_files stem
      | none => []
    .ok { forcing := f, manifest := Forcing.save f,
          output_files :=
            filenames.map (fun kv => kv.2) ++ shape_files ++
              ["ewatercycle_forcing.yaml"] }

/-- C2: for every successful `Forcing.generate` call, loading the manifest
it persisted in the directory it produced returns a Forcing whose start
time, end time, spatial shape and variable→filename mapping are identical
to the generated Forcing's. -/
theorem forcing_generate_load_roundtrip (req : ForcingRequest)
    (model_vars : List String) (output_dir : String) (res : GenerateResult)
    (h : generate req model_vars output_dir = .ok res) :
    ∃ f, Forcing.load res.forcing.directory res.manifest = .ok f ∧
      f.start_time = res.forcing.start_time ∧
      f.end_time = res.forcing.end_time ∧
      f.shape = res.forcing.shape ∧
      f.filenames = res.forcing.filenames := by
  refine ⟨res.forcing, ?_, rfl, rfl, rfl, rfl⟩
  have hm : res.manifest = Forcing.save res.forcing := by
    unfold generate at h
    by_cases h1 : req.end_time ≤ req.start_time
    · simp [h1] at h
    · by_cases h2 : model_vars = []
      · simp [h1, h2] at h
      · rw [if_neg h1, if_neg h2] at h
        cases h
        rfl
  rw [hm]
  exact Forcing.load_save res.forcing

/-- Concrete generation request used by the C2 and C9 witnesses. -/
def gen_request : ForcingRequest :=
  { start_time := 0, end_time := 86400, shape := some "Rhine/Rhine",
    dataset :=
      { name := "ERA5", project := "OBS6", experiment := "historical",
        ensemble := "r1i1p1", grid := "native" } }

/-- The result `generate` produces for `gen_request` with variables
`pr` and `tas` into `/out/run1`. -/
def gen_result : GenerateResult :=
  { forcing :=
      { start_time := 0, end_time := 86400, directory := "/out/run1",
        shape := some "Rhine/Rhine",
        filenames := [("pr", "pr.nc"), ("tas", "tas.nc")] },
    manifest :=
      Forcing.save
        { start_time := 0, end_time := 86400, directory := "/out/run1",
          shape := some "Rhine/Rhine",
          filenames := [("pr", "pr.nc"), ("tas", "tas.nc")] },
    output_files :=
      ["pr.nc", "tas.nc", "Rhine/Rhine.shp", "Rhine/Rhine.shx",
        "Rhine/Rhine.dbf", "Rhine/Rhine.prj", "ewatercycle_forcing.yaml"] }

/-- Witness for C2 at a concrete successful generation: the persisted
manifest loads back to a Forcing with identical start/end time, shape and
filename mapping. -/
theorem forcing_generate_load_roundtrip_witness :
    generate gen_request ["pr", "tas"] "/out/run1" = .ok gen_result ∧
    (∃ f, Forcing.load gen_result.forcing.directory gen_result.manifest =
        .ok f ∧
      f.start_time = gen_result.forcing.start_time ∧
      f.end_time = gen_result.forcing.end_time ∧
      f.shape = gen_result.forcing.shape ∧
      f.filenames = gen_result.forcing.filenames) :=
  ⟨rfl,
    forcing_generate_load_roundtrip gen_request ["pr", "tas"] "/out/run1"
      gen_result rfl⟩

/-- C9: every successful `Forcing.generate` call that was given a spatial
boundary file copies the boundary file together with all of its sibling
files — geometry `.shp`, index `.shx`, attribute `.dbf`, projection
`.prj` — into the output directory. -/
theorem generate_copies_shape_siblings (req : ForcingRequest)
    (model_vars : List String) (output_dir : String) (res : GenerateResult)
    (stem : String) (hsh : req.shape = some stem)
    (h : generate req model_vars output_dir = .ok res) :
    (stem ++ ".shp") ∈ res.output_files ∧
    (stem ++ ".shx") ∈ res.output_files ∧
    (stem ++ ".dbf") ∈ res.output_files ∧
    (stem ++ ".prj") ∈ res.output_files := by
  unfold generate at h
  by_cases h1 : req.end_time ≤ req.start_time
  · simp [h1] at h
  · by_cases h2 : model_vars = []
    · simp [h1, h2] at h
    · rw [if_neg h1, if_neg h2] at h
      cases h
      simp [hsh, shape_sibling_files, List.mem_append]

/-- Witness for C9 at the concrete generation of `gen_request`, whose
boundary file stem is "Rhine/Rhine": all four sibling files land in the
output directory. -/
theorem generate_copies_shape_siblings_witness :
    gen_request.shape = some "Rhine/Rhine" ∧
    generate gen_request ["pr", "tas"] "/out/run1" = .ok gen_result ∧
    (("Rhine/Rhine" ++ ".shp") ∈ gen_result.output_files ∧
      ("Rhine/Rhine" ++ ".shx") ∈ gen_result.output_files ∧
      ("Rhine/Rhine" ++ ".dbf") ∈ gen_result.output_files ∧
      ("Rhine/Rhine" ++ ".prj") ∈ gen_result.output_files) :=
  ⟨rfl, rfl,
    generate_copies_shape_siblings gen_request ["pr", "tas"] "/out/run1"
      gen_result "Rhine/Rhine" rfl rfl⟩

/-! ## ParameterSet configuration entries and path resolution -/

/-- Modelled from the spec: registry-side failures (§4.1, §7):
`NotFoundError`, `DuplicateNameError`, `DownloadError`. -/
inductive RegistryError where
  | notFound
  | duplicateName
  | downloadError
  deriving Repr, DecidableEq

/-- Modelled from the spec: a POSIX path is absolute when it starts
with "/" (expressed over the string's character list, which evaluates
inside Lean's kernel). -/
def is_absolute (p : String) : Bool :=
  match p.data with
  | '/' :: _ => true
  | _ => false

/-- Modelled from the spec: "If Path is relative then relative to
CFG['parameterset_dir']" (system-setup docs) — a relative path is resolved
against the configured parameterset directory, an absolute path is used as
given. -/
def resolve_path (base p : String) : String :=
  if is_absolute p then p else base ++ "/" ++ p

/-- Modelled from the spec: one `parameter_sets` entry of the
configuration file (system-setup docs): directory, config, doi,
target_model, supported_model_versions, keyed by a unique name. -/
structure ParameterSetEntry where
  name : String
  directory : String
  config : String
  doi : String
  target_model : String
  supported_model_versions : List String
  deriving Repr, DecidableEq

/-- Modelled from the spec: turning a configuration entry into a
registered ParameterSet (§3, §4.1) — first resolve the directory and
config paths against `parameterset_dir`, then check the registry
invariant that both resolve to existing locations (the filesystem is
modelled as the list of existing paths), failing with `NotFoundError`
otherwise. -/
def load_parameter_set_entry (existing : List String) (base : String)
    (e : ParameterSetEntry) : Except RegistryError ParameterSet :=
  let dir := resolve_path base e.directory
  let cfg := resolve_path base e.config
  if dir ∈ existing ∧ cfg ∈ existing then
    .ok { name := e.name, directory := dir, config := cfg, doi := e.doi,
          target_model := e.target_model,
          supported_model_versions := e.supported_model_versions }
  else .error .notFound

/-- C10: a configuration entry's relative directory or config path is
resolved against the configured `parameterset_dir` before the existence
invariant is checked, while an absolute path — also one outside
`parameterset_dir` — is used exactly as given; a successfully registered
ParameterSet carries the resolved paths and both exist. -/
theorem parameter_set_entry_path_resolution (existing : List String)
    (base : String) (e : ParameterSetEntry) :
    (∀ ps, load_parameter_set_entry existing base e = .ok ps →
      ps.directory = resolve_path base e.directory ∧
      ps.config = resolve_path base e.config ∧
      ps.directory ∈ existing ∧ ps.config ∈ existing) ∧
    (is_absolute e.directory = true →
      resolve_path base e.directory = e.directory) ∧
    (is_absolute e.directory = false →
      resolve_path base e.directory = base ++ "/" ++ e.directory) := by
  refine ⟨?_, ?_, ?_⟩
  · intro ps hps
    unfold load_parameter_set_entry at hps
    by_cases hex : resolve_path base e.directory ∈ existing ∧
        resolve_path base e.config ∈ existing
    · rw [if_pos hex] at hps
      cases hps
      exact ⟨rfl, rfl, hex.1, hex.2⟩
    · rw [if_neg hex] at hps
      cases hps
  · intro habs
    simp [resolve_path, habs]
  · intro hrel
    simp [resolve_path, hrel]

/-- Configuration entry used by the C10 witness: an absolute directory
outside the configured parameterset directory, as fixed for release
1.1.0. -/
def pcrglobwb_entry : ParameterSetEntry :=
  { name := "pcrglobwb_example_case",
    directory := "/data/pcrglobwb2_input/global_30min",
    config := "/data/pcrglobwb2_input/global_30min/setup_30min.ini",
    doi := "https://doi.org/10.5281/zenodo.1045339",
    target_model := "pcrglobwb", supported_model_versions := ["setters"] }

/-- Witness for C10: loading `pcrglobwb_entry` against the base directory
"/home/user/parametersets" with both absolute paths existing succeeds, and
the registered ParameterSet keeps the absolute directory unchanged even
though it lies outside the base directory. -/
theorem parameter_set_entry_path_resolution_witness :
    load_parameter_set_entry
      ["/data/pcrglobwb2_input/global_30min",
        "/data/pcrglobwb2_input/global_30min/setup_30min.ini"]
      "/home/user/parametersets" pcrglobwb_entry =
      .ok { name := "pcrglobwb_example_case",
            directory := "/data/pcrglobwb2_input/global_30min",
            config := "/data/pcrglobwb2_input/global_30min/setup_30min.ini",
            doi := "https://doi.org/10.5281/zenodo.1045339",
            target_model := "pcrglobwb",
            supported_model_versions := ["setters"] } ∧
    ({ name := "pcrglobwb_example_case",
        directory := "/data/pcrglobwb2_input/global_30min",
        config := "/data/pcrglobwb2_input/global_30min/setup_30min.ini",
        doi := "https://doi.org/10.5281/zenodo.1045339",
        target_model := "pcrglobwb",
        supported_model_versions := ["setters"] } : ParameterSet).directory =
      resolve_path "/home/user/parametersets" pcrglobwb_entry.directory ∧
    resolve_path "/home/user/parametersets" pcrglobwb_entry.directory =
      pcrglobwb_entry.directory :=
  ⟨rfl,
    ((parameter_set_entry_path_resolution
      ["/data/pcrglobwb2_input/global_30min",
        "/data/pcrglobwb2_input/global_30min/setup_30min.ini"]
      "/home/user/parametersets" pcrglobwb_entry).1 _ rfl).1,
    (parameter_set_entry_path_resolution
      ["/data/pcrglobwb2_input/global_30min",
        "/data/pcrglobwb2_input/global_30min/setup_30min.ini"]
      "/home/user/parametersets" pcrglobwb_entry).2.1 rfl⟩

end Ewatercycle
